import Mathlib

/-!
Verification of the character-movement core of the `game-dev-1a` playground:
the locomotion state machine, the velocity resolver (air / ground / jump
branches), the camera drag/follow/rotation-lerp controller and the keyboard
input aggregator, embedded shallowly over real-valued 3-vectors.

Machine floating point is embedded as real arithmetic; the engine's opaque
swept-movement solver (`calculateMovement`) is modelled as a universally
quantified output vector, and per-tick engine effects are recorded as an
explicit call list.
-/

namespace GameDev

/-- Real-valued 3-vector, embedding `BABYLON.Vector3` as used by the
character controller and camera rig. -/
@[ext]
structure Vec3 where
  x : ℝ
  y : ℝ
  z : ℝ

namespace Vec3

/-- Componentwise sum, embedding `Vector3.add` / `addInPlace`. -/
def add (a b : Vec3) : Vec3 := ⟨a.x + b.x, a.y + b.y, a.z + b.z⟩

/-- Componentwise difference, embedding `Vector3.subtract` / `subtractInPlace`. -/
def sub (a b : Vec3) : Vec3 := ⟨a.x - b.x, a.y - b.y, a.z - b.z⟩

/-- Scalar multiple, embedding `Vector3.scale` / `scaleInPlace`. -/
def scale (a : Vec3) (s : ℝ) : Vec3 := ⟨a.x * s, a.y * s, a.z * s⟩

/-- Dot product, embedding `Vector3.dot`. -/
def dot (a b : Vec3) : ℝ := a.x * b.x + a.y * b.y + a.z * b.z

/-- Cross product, embedding `Vector3.cross`. -/
def cross (a b : Vec3) : Vec3 :=
  ⟨a.y * b.z - a.z * b.y, a.z * b.x - a.x * b.z, a.x * b.y - a.y * b.x⟩

/-- Euclidean length, embedding `Vector3.length`. -/
noncomputable def length (a : Vec3) : ℝ := Real.sqrt (dot a a)

/-- Unit-direction vector, embedding `Vector3.normalizeToNew` (division of
each component by the length). -/
noncomputable def normalize (a : Vec3) : Vec3 := a.scale (length a)⁻¹

end Vec3

/-! Configuration constants, from `CONFIG` in `playground.ts`. -/

/-- CONFIG.PHYSICS.CHARACTER_GRAVITY. -/
def CHARACTER_GRAVITY : Vec3 := ⟨0, -18, 0⟩

/-- CONFIG.CHARACTER.JUMP_HEIGHT. -/
def JUMP_HEIGHT : ℝ := 2

/-- CONFIG.CHARACTER.SPEED.BOOST_MULTIPLIER. -/
def BOOST_MULTIPLIER : ℝ := 2

/-- CONFIG.CHARACTER.SPEED.IN_AIR. -/
def SPEED_IN_AIR : ℝ := 8

/-- CONFIG.CHARACTER.SPEED.ON_GROUND. -/
def SPEED_ON_GROUND : ℝ := 10

/-- CONFIG.CAMERA.ZOOM_MIN. -/
def ZOOM_MIN : ℝ := -15

/-- CONFIG.CAMERA.ZOOM_MAX. -/
def ZOOM_MAX : ℝ := -2

/-- CONFIG.CAMERA.DRAG_SENSITIVITY. -/
noncomputable def DRAG_SENSITIVITY : ℝ := 0.02

/-- CONFIG.CHARACTER.ROTATION_SPEED = ToRadians(3). -/
noncomputable def ROTATION_SPEED : ℝ := 3 * Real.pi / 180

/-- CONFIG.CHARACTER.ROTATION_SMOOTHING. -/
noncomputable def ROTATION_SMOOTHING : ℝ := 0.2

/-- The reprojection epsilon `inv1k` of `calculateGroundVelocity`. -/
noncomputable def inv1k : ℝ := 1 / 1000

/-- The fixed `characterRotationDuration` of the camera controller (0.5 s). -/
noncomputable def characterRotationDuration : ℝ := 0.5

/-- The character's "up" direction: `CHARACTER_GRAVITY.normalizeToNew()`
scaled by -1, as computed in `calculateDesiredVelocity`. -/
noncomputable def upWorld : Vec3 := (Vec3.normalize CHARACTER_GRAVITY).scale (-1)

theorem CHARACTER_GRAVITY_length : CHARACTER_GRAVITY.length = 18 := by
  have h : Vec3.dot CHARACTER_GRAVITY CHARACTER_GRAVITY = 18 ^ 2 := by
    norm_num [Vec3.dot, CHARACTER_GRAVITY]
  rw [Vec3.length, h, Real.sqrt_sq (by norm_num)]

theorem upWorld_eq : upWorld = ⟨0, 1, 0⟩ := by
  rw [upWorld, Vec3.normalize, CHARACTER_GRAVITY_length]
  simp [Vec3.scale, CHARACTER_GRAVITY]

/-! Locomotion state machine (`CHARACTER_STATES` and `getNextState`). -/

/-- The three character states of `CHARACTER_STATES`. -/
inductive CharacterState where
  | IN_AIR
  | ON_GROUND
  | START_JUMP
deriving DecidableEq

/-- The support classification of `BABYLON.CharacterSupportedState`. -/
inductive CharacterSupportedState where
  | UNSUPPORTED
  | SLIDING
  | SUPPORTED
deriving DecidableEq

/-- Per-tick support snapshot, embedding `BABYLON.CharacterSurfaceInfo` in the
fields the controller reads. -/
structure CharacterSurfaceInfo where
  supportedState : CharacterSupportedState
  averageSurfaceNormal : Vec3
  averageSurfaceVelocity : Vec3

/-- State transition of `getNextState`; `state` and `wantJump` are the fields
of `CharacterController` the source method reads through `this`. -/
def getNextState (state : CharacterState) (wantJump : Bool)
    (supportInfo : CharacterSurfaceInfo) : CharacterState :=
  match state with
  | .IN_AIR =>
      if supportInfo.supportedState = .SUPPORTED then .ON_GROUND else .IN_AIR
  | .ON_GROUND =>
      if supportInfo.supportedState ≠ .SUPPORTED then .IN_AIR
      else if wantJump then .START_JUMP else .ON_GROUND
  | .START_JUMP => .IN_AIR

/-- C1: the locomotion transition function satisfies exactly the spec's table
for every support input and every wantJump flag: from IN_AIR it returns
ON_GROUND iff supported, else IN_AIR; from ON_GROUND it returns IN_AIR iff not
supported, else START_JUMP iff wantJump, else ON_GROUND; from START_JUMP it
returns IN_AIR unconditionally; and every reachable state is one of the three
states. -/
theorem c1_getNextState_table (wantJump : Bool) (info : CharacterSurfaceInfo) :
    (getNextState .IN_AIR wantJump info = .ON_GROUND ↔
      info.supportedState = .SUPPORTED) ∧
    (getNextState .IN_AIR wantJump info = .IN_AIR ↔
      info.supportedState ≠ .SUPPORTED) ∧
    (getNextState .ON_GROUND wantJump info = .IN_AIR ↔
      info.supportedState ≠ .SUPPORTED) ∧
    (info.supportedState = .SUPPORTED →
      getNextState .ON_GROUND wantJump info =
        if wantJump then .START_JUMP else .ON_GROUND) ∧
    getNextState .START_JUMP wantJump info = .IN_AIR ∧
    (∀ s, getNextState s wantJump info = .IN_AIR ∨
      getNextState s wantJump info = .ON_GROUND ∨
      getNextState s wantJump info = .START_JUMP) := by
  obtain ⟨sup, n, sv⟩ := info
  refine ⟨?_, ?_, ?_, ?_, ?_, ?_⟩
  · cases sup <;> cases wantJump <;> simp [getNextState]
  · cases sup <;> cases wantJump <;> simp [getNextState]
  · cases sup <;> cases wantJump <;> simp [getNextState]
  · intro h; cases sup <;> simp_all [getNextState]
  · rfl
  · intro s
    cases s <;> cases sup <;> cases wantJump <;> simp [getNextState]

/-- Witness for C1 at a concrete input: grounded, supported, wantJump. -/
theorem c1_witness :
    getNextState .ON_GROUND true ⟨.SUPPORTED, ⟨0, 0, 0⟩, ⟨0, 0, 0⟩⟩ =
      .START_JUMP := by
  have h :=
    (c1_getNextState_table true ⟨.SUPPORTED, ⟨0, 0, 0⟩, ⟨0, 0, 0⟩⟩).2.2.2.1 rfl
  simpa using h

/-! Velocity resolver: JUMP_START branch (`calculateJumpVelocity`). -/

/-- JUMP_START velocity resolution, embedding `calculateJumpVelocity`:
launch speed `u = sqrt(2 * |gravity| * jumpHeight)`, and the current
velocity's component along up is replaced by `u`. The source reads only the
configured `JUMP_HEIGHT` and `CHARACTER_GRAVITY`; it takes no boost input. -/
noncomputable def calculateJumpVelocity (currentVelocity : Vec3) : Vec3 :=
  let u := Real.sqrt (2 * CHARACTER_GRAVITY.length * JUMP_HEIGHT)
  let curRelVel := currentVelocity.dot upWorld
  currentVelocity.add (upWorld.scale (u - curRelVel))

/-- Claim C2 asserts the jump height is multiplied by the boost multiplier
while the boost input is held; this definition follows that spec wording, for
comparison against `calculateJumpVelocity` (which ignores boost). -/
noncomputable def specBoostedJumpLaunchSpeed (isBoosting : Bool) : ℝ :=
  Real.sqrt (2 * CHARACTER_GRAVITY.length *
    (if isBoosting then JUMP_HEIGHT * BOOST_MULTIPLIER else JUMP_HEIGHT))

/-- Counterexample to C2 as stated: with the boost input held, the claim
predicts an up-component of sqrt(2*18*(2*2)) = 12, but the code launches with
sqrt(2*18*2) regardless of boost, a strictly smaller speed. -/
theorem c2_counterexample :
    (calculateJumpVelocity ⟨0, 0, 0⟩).dot upWorld ≠
      specBoostedJumpLaunchSpeed true := by
  have hup : (calculateJumpVelocity ⟨0, 0, 0⟩).dot upWorld =
      Real.sqrt (2 * CHARACTER_GRAVITY.length * JUMP_HEIGHT) := by
    simp [calculateJumpVelocity, upWorld_eq, Vec3.add, Vec3.scale, Vec3.dot]
  rw [hup, specBoostedJumpLaunchSpeed, CHARACTER_GRAVITY_length]
  have h : Real.sqrt (2 * 18 * JUMP_HEIGHT) <
      Real.sqrt (2 * 18 * (JUMP_HEIGHT * BOOST_MULTIPLIER)) := by
    apply Real.sqrt_lt_sqrt <;> norm_num [JUMP_HEIGHT, BOOST_MULTIPLIER]
  simpa using ne_of_lt h

/-- C2 (amended): for every current velocity `v0`, the JUMP_START branch
returns `v0` with its up-component replaced by the launch speed
`u = sqrt(2 * |gravity| * jumpHeight)` where jumpHeight is the configured
constant (never boosted); the returned up-component equals `u` exactly,
independent of `v0`, and every component orthogonal to up is unchanged. -/
theorem c2_jump_up_component (v : Vec3) :
    (calculateJumpVelocity v).dot upWorld =
      Real.sqrt (2 * CHARACTER_GRAVITY.length * JUMP_HEIGHT) ∧
    (∀ w : Vec3, w.dot upWorld = 0 →
      (calculateJumpVelocity v).dot w = v.dot w) := by
  constructor
  · simp [calculateJumpVelocity, upWorld_eq, Vec3.add, Vec3.scale, Vec3.dot]
  · intro w hw
    simp only [upWorld_eq, Vec3.dot] at hw ⊢
    simp only [calculateJumpVelocity, upWorld_eq, Vec3.add, Vec3.scale,
      Vec3.dot]
    have hwy : w.y = 0 := by linarith
    rw [hwy]; ring

/-- Witness for C2 at a concrete input: the component of the jump velocity
along a horizontal direction is unchanged. -/
theorem c2_witness :
    (calculateJumpVelocity ⟨3, 5, 7⟩).dot ⟨1, 0, 0⟩ =
      Vec3.dot ⟨3, 5, 7⟩ ⟨1, 0, 0⟩ :=
  (c2_jump_up_component ⟨3, 5, 7⟩).2 ⟨1, 0, 0⟩
    (by simp [upWorld_eq, Vec3.dot])

/-! Velocity resolver: IN_AIR branch (`calculateAirVelocity`). The engine's
swept-movement solver `calculateMovement` is opaque; its return value enters
as the parameter `solverOutput`. -/

/-- IN_AIR velocity resolution, embedding the tail of `calculateAirVelocity`
after the opaque `calculateMovement` call: strip the solver output's
up-component, re-add the pre-existing vertical speed, then integrate gravity
for this sub-step. -/
noncomputable def calculateAirVelocity (deltaTime : ℝ)
    (currentVelocity solverOutput : Vec3) : Vec3 :=
  let v1 := solverOutput.add (upWorld.scale (-(solverOutput.dot upWorld)))
  let v2 := v1.add (upWorld.scale (currentVelocity.dot upWorld))
  v2.add (CHARACTER_GRAVITY.scale deltaTime)

/-- C4: for every delta-time, current velocity and solver output, the IN_AIR
branch returns a vector whose up-component is the pre-existing vertical speed
plus one gravity sub-step, and whose horizontal part is exactly the solver
output with its up-component stripped. -/
theorem c4_air_velocity (dt : ℝ) (v out : Vec3) :
    (calculateAirVelocity dt v out).dot upWorld =
      v.dot upWorld + CHARACTER_GRAVITY.dot upWorld * dt ∧
    (calculateAirVelocity dt v out).sub
        (upWorld.scale ((calculateAirVelocity dt v out).dot upWorld)) =
      out.sub (upWorld.scale (out.dot upWorld)) := by
  constructor
  · simp [calculateAirVelocity, upWorld_eq, CHARACTER_GRAVITY, Vec3.add,
      Vec3.scale, Vec3.dot]
  · simp only [calculateAirVelocity, upWorld_eq, CHARACTER_GRAVITY, Vec3.add,
      Vec3.scale, Vec3.dot, Vec3.sub]
    ext <;> dsimp only <;> ring

/-! Velocity resolver: ON_GROUND branch (`calculateGroundVelocity`). -/

/-- ON_GROUND velocity resolution, embedding the tail of
`calculateGroundVelocity` after the opaque `calculateMovement` call: subtract
the surface velocity; if the relative velocity's up-component exceeds `inv1k`,
reproject via `(surfaceNormal × normalizedVelocity) × up` scaled by
`velLen / (surfaceNormal · up)` and return it directly; otherwise re-add the
surface velocity and return. -/
noncomputable def calculateGroundVelocity (supportInfo : CharacterSurfaceInfo)
    (solverOutput : Vec3) : Vec3 :=
  let outputVelocity := solverOutput.sub supportInfo.averageSurfaceVelocity
  if inv1k < outputVelocity.dot upWorld then
    let velLen := outputVelocity.length
    let normalized := outputVelocity.scale velLen⁻¹
    let horizLen := velLen / supportInfo.averageSurfaceNormal.dot upWorld
    let c := supportInfo.averageSurfaceNormal.cross normalized
    (c.cross upWorld).scale horizLen
  else
    outputVelocity.add supportInfo.averageSurfaceVelocity

theorem calculateGroundVelocity_pos (supportInfo : CharacterSurfaceInfo)
    (solverOutput : Vec3)
    (h : inv1k <
      (solverOutput.sub supportInfo.averageSurfaceVelocity).dot upWorld) :
    calculateGroundVelocity supportInfo solverOutput =
      ((supportInfo.averageSurfaceNormal.cross
          ((solverOutput.sub supportInfo.averageSurfaceVelocity).scale
            ((solverOutput.sub supportInfo.averageSurfaceVelocity).length)⁻¹)).cross
        upWorld).scale
        ((solverOutput.sub supportInfo.averageSurfaceVelocity).length /
          supportInfo.averageSurfaceNormal.dot upWorld) := by
  simp only [calculateGroundVelocity]
  rw [if_pos h]

theorem scale_cross_dot (a b : Vec3) (s : ℝ) :
    ((a.cross b).scale s).dot b = 0 := by
  simp only [Vec3.cross, Vec3.scale, Vec3.dot]
  ring

/-- Counterexample to C3 as stated: with unit surface normal (3/5, 4/5, 0)
and surface-relative swept velocity (1, 1, 0) — which is not parallel to up
and has up-component 1 > 1e-3 — the reprojected vector is (1/4, 0, 0), of
magnitude 1/4, while the replaced velocity has magnitude sqrt 2: the
reprojection is not speed-preserving. -/
theorem c3_counterexample :
    Vec3.length ⟨3 / 5, 4 / 5, 0⟩ = 1 ∧
    Vec3.cross ⟨3 / 5, 4 / 5, 0⟩ upWorld ≠ ⟨0, 0, 0⟩ ∧
    Vec3.cross ⟨1, 1, 0⟩ upWorld ≠ ⟨0, 0, 0⟩ ∧
    inv1k < Vec3.dot ⟨1, 1, 0⟩ upWorld ∧
    (calculateGroundVelocity ⟨.SUPPORTED, ⟨3 / 5, 4 / 5, 0⟩, ⟨0, 0, 0⟩⟩
        ⟨1, 1, 0⟩).length ≠
      (Vec3.sub ⟨1, 1, 0⟩ ⟨0, 0, 0⟩).length := by
  have hov : Vec3.sub ⟨1, 1, 0⟩ ⟨0, 0, 0⟩ = (⟨1, 1, 0⟩ : Vec3) := by
    simp [Vec3.sub]
  have hlen2 : (⟨1, 1, 0⟩ : Vec3).length = Real.sqrt 2 := by
    have h : Vec3.dot ⟨1, 1, 0⟩ ⟨1, 1, 0⟩ = 2 := by norm_num [Vec3.dot]
    rw [Vec3.length, h]
  have hs2 : (0 : ℝ) < Real.sqrt 2 := Real.sqrt_pos.mpr (by norm_num)
  refine ⟨?_, ?_, ?_, ?_, ?_⟩
  · have h : Vec3.dot ⟨3 / 5, 4 / 5, 0⟩ ⟨3 / 5, 4 / 5, 0⟩ = 1 := by
      norm_num [Vec3.dot]
    rw [Vec3.length, h, Real.sqrt_one]
  · simp [Vec3.cross, upWorld_eq, Vec3.mk.injEq]
  · simp [Vec3.cross, upWorld_eq, Vec3.mk.injEq]
  · norm_num [inv1k, Vec3.dot, upWorld_eq]
  · have hres : calculateGroundVelocity
        ⟨.SUPPORTED, ⟨3 / 5, 4 / 5, 0⟩, ⟨0, 0, 0⟩⟩ ⟨1, 1, 0⟩ =
        ⟨1 / 4, 0, 0⟩ := by
      rw [calculateGroundVelocity_pos _ _
        (by rw [hov]; norm_num [inv1k, Vec3.dot, upWorld_eq])]
      rw [hov, hlen2]
      ext <;>
        simp only [Vec3.cross, Vec3.scale, Vec3.dot, upWorld_eq] <;>
        field_simp <;> ring
    rw [hres, hov, hlen2]
    have hq : Vec3.length ⟨1 / 4, 0, 0⟩ = 1 / 4 := by
      have h : Vec3.dot ⟨1 / 4, 0, 0⟩ ⟨1 / 4, 0, 0⟩ = (1 / 4 : ℝ) ^ 2 := by
        norm_num [Vec3.dot]
      rw [Vec3.length, h, Real.sqrt_sq (by norm_num)]
    rw [hq]
    have h1 : (1 : ℝ) ≤ Real.sqrt 2 := by
      rw [show (1 : ℝ) = Real.sqrt 1 from Real.sqrt_one.symm]
      exact Real.sqrt_le_sqrt (by norm_num)
    intro hcontra
    rw [← hcontra] at h1
    norm_num at h1

/-- C3 (amended): whenever the surface-relative swept velocity has
up-component above 1e-3, the reprojection path is taken and returns
`(surfaceNormal × normalizedVelocity) × up` scaled by
`velLen / (surfaceNormal · up)`; the returned vector is orthogonal to up
(purely horizontal). Its magnitude is in general NOT equal to the magnitude of
the surface-relative swept velocity it replaces. -/
theorem c3_ground_reprojection (supportInfo : CharacterSurfaceInfo)
    (solverOutput : Vec3)
    (h : inv1k <
      (solverOutput.sub supportInfo.averageSurfaceVelocity).dot upWorld) :
    calculateGroundVelocity supportInfo solverOutput =
      ((supportInfo.averageSurfaceNormal.cross
          ((solverOutput.sub supportInfo.averageSurfaceVelocity).scale
            ((solverOutput.sub supportInfo.averageSurfaceVelocity).length)⁻¹)).cross
        upWorld).scale
        ((solverOutput.sub supportInfo.averageSurfaceVelocity).length /
          supportInfo.averageSurfaceNormal.dot upWorld) ∧
    (calculateGroundVelocity supportInfo solverOutput).dot upWorld = 0 := by
  have heq := calculateGroundVelocity_pos supportInfo solverOutput h
  exact ⟨heq, by rw [heq]; exact scale_cross_dot _ _ _⟩

/-- Witness for C3 at a concrete input: the reprojected grounded velocity is
horizontal. -/
theorem c3_witness :
    (calculateGroundVelocity ⟨.SUPPORTED, ⟨3 / 5, 4 / 5, 0⟩, ⟨0, 0, 0⟩⟩
        ⟨1, 1, 0⟩).dot upWorld = 0 :=
  (c3_ground_reprojection ⟨.SUPPORTED, ⟨3 / 5, 4 / 5, 0⟩, ⟨0, 0, 0⟩⟩ ⟨1, 1, 0⟩
    (by norm_num [inv1k, Vec3.sub, Vec3.dot, upWorld_eq])).2

/-! Camera rig: wheel zoom and two-finger pan
(`SmoothFollowCameraController.handleWheel` / `handleTwoFingerPan`). -/

/-- Scalar clamp, embedding `BABYLON.Scalar.Clamp`. -/
noncomputable def clamp (value lo hi : ℝ) : ℝ := min (max value lo) hi

/-- Wheel mutation of the offset's depth component, embedding `handleWheel`:
`offset.z += deltaX * sensitivity * 6`, then clamp to
[ZOOM_MIN, ZOOM_MAX]. -/
noncomputable def handleWheel (offsetZ deltaX : ℝ) : ℝ :=
  clamp (offsetZ + deltaX * DRAG_SENSITIVITY * 6) ZOOM_MIN ZOOM_MAX

/-- Two-finger pan mutation of the persistent offset, embedding
`handleTwoFingerPan`: the frame-to-frame movement of the midpoint of the two
touch points translates the offset along camera-right and camera-forward
scaled by `4 * sensitivity`. No clamp is applied. -/
noncomputable def handleTwoFingerPan
    (last0x last0y last1x last1y cur0x cur0y cur1x cur1y : ℝ)
    (right forward offset : Vec3) : Vec3 :=
  let lastMidX := (last0x + last1x) / 2
  let lastMidY := (last0y + last1y) / 2
  let currMidX := (cur0x + cur1x) / 2
  let currMidY := (cur0y + cur1y) / 2
  let deltaX := currMidX - lastMidX
  let deltaY := currMidY - lastMidY
  (offset.add (right.scale (-deltaX * DRAG_SENSITIVITY * 4))).add
    (forward.scale (deltaY * DRAG_SENSITIVITY * 4))

/-- Counterexample to C5 as stated: starting from the in-range depth
offset.z = -2, a single two-finger pan (midpoint moving 100 px downward, with
identity camera orientation) moves offset.z to 6, outside
[ZOOM_MIN, ZOOM_MAX]: pan mutations are not clamped. -/
theorem c5_counterexample :
    (ZOOM_MIN ≤ (⟨0, 1.2, -2⟩ : Vec3).z ∧ (⟨0, 1.2, -2⟩ : Vec3).z ≤ ZOOM_MAX) ∧
    ¬ (handleTwoFingerPan 0 0 0 0 0 100 0 100
        ⟨1, 0, 0⟩ ⟨0, 0, 1⟩ ⟨0, 1.2, -2⟩).z ≤ ZOOM_MAX := by
  norm_num [handleTwoFingerPan, Vec3.add, Vec3.scale, ZOOM_MIN, ZOOM_MAX,
    DRAG_SENSITIVITY]

/-- C5 (amended): after every individual wheel mutation, offset.z lies within
[ZOOM_MIN, ZOOM_MAX] (from any starting value, hence after each mutation of
any sequence of wheel events). Two-finger pan mutations translate the offset
without clamping and can leave offset.z outside the range. -/
theorem c5_wheel_clamped (offsetZ deltaX : ℝ) :
    ZOOM_MIN ≤ handleWheel offsetZ deltaX ∧
    handleWheel offsetZ deltaX ≤ ZOOM_MAX := by
  unfold handleWheel clamp
  constructor
  · exact le_min (le_max_right _ _) (by norm_num [ZOOM_MIN, ZOOM_MAX])
  · exact min_le_right _ _

/-! Rotation-lerp start (`startCharacterRotationLerp`): shortest-path
normalization of the yaw difference. The source normalizes with two `while`
loops; each is embedded as a terminating recursive function, so totality of
these definitions is the termination of the loops. -/

/-- First normalization loop of `startCharacterRotationLerp`:
`while (rotationDifference > π) rotationDifference -= 2π`. -/
noncomputable def wrapDown (d : ℝ) : ℝ :=
  if h : Real.pi < d then wrapDown (d - 2 * Real.pi) else d
termination_by (⌈(d - Real.pi) / (2 * Real.pi)⌉).toNat
decreasing_by
  have hpi : (0 : ℝ) < Real.pi := Real.pi_pos
  have h2pi : (0 : ℝ) < 2 * Real.pi := by linarith
  have key : (d - 2 * Real.pi - Real.pi) / (2 * Real.pi) =
      (d - Real.pi) / (2 * Real.pi) - 1 := by
    field_simp
    ring
  rw [key, Int.ceil_sub_one]
  have hpos : 0 < ⌈(d - Real.pi) / (2 * Real.pi)⌉ :=
    Int.ceil_pos.mpr (div_pos (by linarith) h2pi)
  omega

/-- Second normalization loop of `startCharacterRotationLerp`:
`while (rotationDifference < -π) rotationDifference += 2π`. -/
noncomputable def wrapUp (d : ℝ) : ℝ :=
  if h : d < -Real.pi then wrapUp (d + 2 * Real.pi) else d
termination_by (⌈(-Real.pi - d) / (2 * Real.pi)⌉).toNat
decreasing_by
  have hpi : (0 : ℝ) < Real.pi := Real.pi_pos
  have h2pi : (0 : ℝ) < 2 * Real.pi := by linarith
  have key : (-Real.pi - (d + 2 * Real.pi)) / (2 * Real.pi) =
      (-Real.pi - d) / (2 * Real.pi) - 1 := by
    field_simp
    ring
  rw [key, Int.ceil_sub_one]
  have hpos : 0 < ⌈(-Real.pi - d) / (2 * Real.pi)⌉ :=
    Int.ceil_pos.mpr (div_pos (by linarith) h2pi)
  omega

theorem wrapDown_le (d : ℝ) : wrapDown d ≤ Real.pi := by
  induction d using wrapDown.induct with
  | case1 d h ih => rw [wrapDown, dif_pos h]; exact ih
  | case2 d h => rw [wrapDown, dif_neg h]; exact le_of_not_lt h

theorem wrapDown_modeq (d : ℝ) : ∃ k : ℤ, wrapDown d = d - 2 * Real.pi * k := by
  induction d using wrapDown.induct with
  | case1 d h ih =>
      obtain ⟨k, hk⟩ := ih
      refine ⟨k + 1, ?_⟩
      rw [wrapDown, dif_pos h, hk]
      push_cast
      ring
  | case2 d h =>
      refine ⟨0, ?_⟩
      rw [wrapDown, dif_neg h]
      push_cast
      ring

theorem wrapUp_ge (d : ℝ) : -Real.pi ≤ wrapUp d := by
  induction d using wrapUp.induct with
  | case1 d h ih => rw [wrapUp, dif_pos h]; exact ih
  | case2 d h => rw [wrapUp, dif_neg h]; exact le_of_not_lt h

theorem wrapUp_le (d : ℝ) (hd : d ≤ Real.pi) : wrapUp d ≤ Real.pi := by
  induction d using wrapUp.induct with
  | case1 d h ih =>
      rw [wrapUp, dif_pos h]
      exact ih (by have := Real.pi_pos; linarith)
  | case2 d h => rw [wrapUp, dif_neg h]; exact hd

theorem wrapUp_modeq (d : ℝ) : ∃ k : ℤ, wrapUp d = d + 2 * Real.pi * k := by
  induction d using wrapUp.induct with
  | case1 d h ih =>
      obtain ⟨k, hk⟩ := ih
      refine ⟨k + 1, ?_⟩
      rw [wrapUp, dif_pos h, hk]
      push_cast
      ring
  | case2 d h =>
      refine ⟨0, ?_⟩
      rw [wrapUp, dif_neg h]
      push_cast
      ring

/-- Shortest-path normalization of the raw yaw difference, embedding the two
`while` loops of `startCharacterRotationLerp` in sequence. -/
noncomputable def normalizeRotationDifference (d : ℝ) : ℝ := wrapUp (wrapDown d)

/-- Rotation-lerp start, embedding the tail of `startCharacterRotationLerp`:
records the start yaw and the target `currentYaw + rotationDifference` after
shortest-path normalization. The target yaw input is the `atan2`-derived
desired heading, opaque here. -/
noncomputable def startCharacterRotationLerp (targetYaw currentYaw : ℝ) :
    ℝ × ℝ :=
  (currentYaw, currentYaw + normalizeRotationDifference (targetYaw - currentYaw))

/-- C6: for every current yaw `c` and target yaw `t`, the stored path
difference `d` (lerp target minus current yaw) satisfies `-π ≤ d ≤ π` and
`c + d ≡ t (mod 2π)`; the normalization loops terminate on every input, as
witnessed by totality of `wrapDown` and `wrapUp`. -/
theorem c6_shortest_path (t c : ℝ) :
    -Real.pi ≤ (startCharacterRotationLerp t c).2 - c ∧
    (startCharacterRotationLerp t c).2 - c ≤ Real.pi ∧
    ∃ k : ℤ, c + ((startCharacterRotationLerp t c).2 - c) =
      t + 2 * Real.pi * k := by
  have hd : (startCharacterRotationLerp t c).2 - c =
      normalizeRotationDifference (t - c) := by
    simp [startCharacterRotationLerp]
  rw [hd]
  unfold normalizeRotationDifference
  refine ⟨wrapUp_ge _, wrapUp_le _ (wrapDown_le _), ?_⟩
  obtain ⟨k1, hk1⟩ := wrapDown_modeq (t - c)
  obtain ⟨k2, hk2⟩ := wrapUp_modeq (wrapDown (t - c))
  refine ⟨k2 - k1, ?_⟩
  rw [hk2, hk1]
  push_cast
  ring

/-! Input aggregator (`INPUT_KEYS`, `handleKeyDown`, `handleKeyUp`). -/

namespace INPUT_KEYS

/-- INPUT_KEYS.FORWARD. -/
def FORWARD : List String := ["w", "arrowup"]

/-- INPUT_KEYS.BACKWARD. -/
def BACKWARD : List String := ["s", "arrowdown"]

/-- INPUT_KEYS.LEFT. -/
def LEFT : List String := ["a", "arrowleft"]

/-- INPUT_KEYS.RIGHT. -/
def RIGHT : List String := ["d", "arrowright"]

/-- INPUT_KEYS.STRAFE_LEFT. -/
def STRAFE_LEFT : List String := ["q"]

/-- INPUT_KEYS.STRAFE_RIGHT. -/
def STRAFE_RIGHT : List String := ["e"]

/-- INPUT_KEYS.JUMP. -/
def JUMP : List String := [" "]

/-- INPUT_KEYS.BOOST. -/
def BOOST : List String := ["shift"]

/-- INPUT_KEYS.DEBUG. -/
def DEBUG : List String := ["0"]

end INPUT_KEYS

/-- The mutable fields of `CharacterController` driven by keyboard events and
the physics tick. -/
structure CharacterControllerState where
  state : CharacterState
  wantJump : Bool
  isBoosting : Bool
  inputDirection : Vec3
  displayCapsuleVisible : Bool

/-- Initial `CharacterController` field values: state IN_AIR, wantJump false,
inputDirection (0,0,0), isBoosting false, capsule visibility
CONFIG.DEBUG.CAPSULE_VISIBLE = false. -/
def initialControllerState : CharacterControllerState :=
  ⟨.IN_AIR, false, false, ⟨0, 0, 0⟩, false⟩

/-- Key-down handler, embedding `handleKeyDown` (an if/else-if chain; the
particle/sound side effects of the boost branch touch no modelled field). -/
def handleKeyDown (key : String) (st : CharacterControllerState) :
    CharacterControllerState :=
  if key ∈ INPUT_KEYS.FORWARD then
    { st with inputDirection := { st.inputDirection with z := 1 } }
  else if key ∈ INPUT_KEYS.BACKWARD then
    { st with inputDirection := { st.inputDirection with z := -1 } }
  else if key ∈ INPUT_KEYS.STRAFE_LEFT then
    { st with inputDirection := { st.inputDirection with x := -1 } }
  else if key ∈ INPUT_KEYS.STRAFE_RIGHT then
    { st with inputDirection := { st.inputDirection with x := 1 } }
  else if key ∈ INPUT_KEYS.JUMP then
    { st with wantJump := true }
  else if key ∈ INPUT_KEYS.BOOST then
    { st with isBoosting := true }
  else if key ∈ INPUT_KEYS.DEBUG then
    { st with displayCapsuleVisible := !st.displayCapsuleVisible }
  else st

/-- Key-up handler, embedding `handleKeyUp` (a sequence of independent `if`
statements). -/
def handleKeyUp (key : String) (st : CharacterControllerState) :
    CharacterControllerState :=
  let st :=
    if key ∈ INPUT_KEYS.FORWARD ∨ key ∈ INPUT_KEYS.BACKWARD then
      { st with inputDirection := { st.inputDirection with z := 0 } }
    else st
  let st :=
    if key ∈ INPUT_KEYS.LEFT ∨ key ∈ INPUT_KEYS.RIGHT then
      { st with inputDirection := { st.inputDirection with x := 0 } }
    else st
  let st :=
    if key ∈ INPUT_KEYS.STRAFE_LEFT ∨ key ∈ INPUT_KEYS.STRAFE_RIGHT then
      { st with inputDirection := { st.inputDirection with x := 0 } }
    else st
  let st := if key ∈ INPUT_KEYS.JUMP then { st with wantJump := false } else st
  let st :=
    if key ∈ INPUT_KEYS.BOOST then { st with isBoosting := false } else st
  st

/-- Counterexample to C7 as stated: key "a" is mapped to no axis by key-down
(its key-down leaves the whole state unchanged), yet its key-up clears the
strafe axis. Press "e" (strafe axis becomes 1), then release "a": the strafe
axis is reset to 0. -/
theorem c7_counterexample :
    handleKeyDown "a" (handleKeyDown "e" initialControllerState) =
      handleKeyDown "e" initialControllerState ∧
    (handleKeyDown "e" initialControllerState).inputDirection.x = 1 ∧
    (handleKeyUp "a" (handleKeyDown "e" initialControllerState)).inputDirection.x
      = 0 := by
  refine ⟨?_, ?_, ?_⟩ <;>
    simp [handleKeyDown, handleKeyUp, initialControllerState,
      INPUT_KEYS.FORWARD, INPUT_KEYS.BACKWARD, INPUT_KEYS.LEFT,
      INPUT_KEYS.RIGHT, INPUT_KEYS.STRAFE_LEFT, INPUT_KEYS.STRAFE_RIGHT,
      INPUT_KEYS.JUMP, INPUT_KEYS.BOOST, INPUT_KEYS.DEBUG]

/-- C7 (amended): the forward/back axis is changed only by events on its own
keys (w/arrowup/s/arrowdown); the strafe axis is set only by key-down of the
strafe keys (q/e) and cleared only by key-up of the strafe keys or of the
rotation keys (a/arrowleft/d/arrowright); events on any other key never change
either axis, and no single key-down changes both axes. (Releasing a rotation
key clears the strafe axis even though rotation key-downs never set it.) -/
theorem c7_axis_independence (key : String) (st : CharacterControllerState) :
    (key ∉ INPUT_KEYS.FORWARD → key ∉ INPUT_KEYS.BACKWARD →
      (handleKeyDown key st).inputDirection.z = st.inputDirection.z ∧
      (handleKeyUp key st).inputDirection.z = st.inputDirection.z) ∧
    (key ∉ INPUT_KEYS.STRAFE_LEFT → key ∉ INPUT_KEYS.STRAFE_RIGHT →
      (handleKeyDown key st).inputDirection.x = st.inputDirection.x) ∧
    (key ∉ INPUT_KEYS.STRAFE_LEFT → key ∉ INPUT_KEYS.STRAFE_RIGHT →
      key ∉ INPUT_KEYS.LEFT → key ∉ INPUT_KEYS.RIGHT →
      (handleKeyUp key st).inputDirection.x = st.inputDirection.x) ∧
    ((handleKeyDown key st).inputDirection.z = st.inputDirection.z ∨
      (handleKeyDown key st).inputDirection.x = st.inputDirection.x) := by
  refine ⟨?_, ?_, ?_, ?_⟩
  · intro h1 h2
    refine ⟨?_, ?_⟩
    · simp only [handleKeyDown]
      split_ifs <;> simp_all
    · simp only [handleKeyUp]
      split_ifs <;> simp_all
  · intro h1 h2
    simp only [handleKeyDown]
    split_ifs <;> simp_all
  · intro h1 h2 h3 h4
    simp only [handleKeyUp]
    split_ifs <;> simp_all
  · simp only [handleKeyDown]
    split_ifs <;> simp

/-- Witness for C7 at a concrete input: events on the unrelated key "p" leave
the strafe axis unchanged. -/
theorem c7_witness :
    (handleKeyUp "p" initialControllerState).inputDirection.x =
      initialControllerState.inputDirection.x :=
  (c7_axis_independence "p" initialControllerState).2.2.1
    (by decide) (by decide) (by decide) (by decide)

/-! Physics tick (`updatePhysics` / `calculateDesiredVelocity`). Engine
interactions are recorded as an explicit call list; the engine-read current
velocity and the opaque swept-solver output enter as parameters. -/

/-- Calls the physics tick makes into the engine's character controller. -/
inductive EngineCall where
  | checkSupport (deltaTime : ℝ) (down : Vec3)
  | setVelocity (v : Vec3)
  | integrate (deltaTime : ℝ)

/-- Velocity resolution dispatch, embedding `calculateDesiredVelocity`:
advances the state via `getNextState`, then resolves velocity by the branch of
the new state. -/
noncomputable def calculateDesiredVelocity (st : CharacterControllerState)
    (deltaTime : ℝ) (support : CharacterSurfaceInfo)
    (currentVelocity solverOutput : Vec3) : CharacterState × Vec3 :=
  let nextState := getNextState st.state st.wantJump support
  match nextState with
  | .IN_AIR => (nextState, calculateAirVelocity deltaTime currentVelocity solverOutput)
  | .ON_GROUND => (nextState, calculateGroundVelocity support solverOutput)
  | .START_JUMP => (nextState, calculateJumpVelocity currentVelocity)

/-- Physics-tick update, embedding `updatePhysics`. `sceneDeltaTime` is the
engine-supplied delta in milliseconds, `none` when `scene.deltaTime` is
undefined; the JS falsiness guard `!this.scene.deltaTime` rejects both
`undefined` and `0`, and a second guard rejects a zero delta in seconds. -/
noncomputable def updatePhysics (st : CharacterControllerState)
    (sceneDeltaTime : Option ℝ) (support : CharacterSurfaceInfo)
    (currentVelocity solverOutput : Vec3) :
    CharacterControllerState × List EngineCall :=
  match sceneDeltaTime with
  | none => (st, [])
  | some ms =>
    if ms = 0 then (st, [])
    else
      let deltaTime := ms / 1000
      if deltaTime = 0 then (st, [])
      else
        let res := calculateDesiredVelocity st deltaTime support
          currentVelocity solverOutput
        ({ st with state := res.1 },
          [EngineCall.checkSupport deltaTime ⟨0, -1, 0⟩,
           EngineCall.setVelocity res.2,
           EngineCall.integrate deltaTime])

/-- C8: a physics tick whose delta-time is zero or undefined returns with the
controller state unchanged and makes no engine call (no support check, no
setVelocity, no integrate). -/
theorem c8_zero_dt_noop (st : CharacterControllerState)
    (support : CharacterSurfaceInfo) (currentVelocity solverOutput : Vec3) :
    updatePhysics st none support currentVelocity solverOutput = (st, []) ∧
    updatePhysics st (some 0) support currentVelocity solverOutput = (st, []) := by
  constructor <;> simp [updatePhysics]

/-! Per-frame rotation and camera follow (`updateRotation`,
`smoothFollowTarget`, `updateCharacterRotationLerp`, `easeInOutCubic`). -/

/-- Scalar linear interpolation, embedding `BABYLON.Scalar.Lerp`. -/
def lerpScalar (a b t : ℝ) : ℝ := a + (b - a) * t

/-- Componentwise linear interpolation, embedding `BABYLON.Vector3.LerpToRef`. -/
def lerpVec (a b : Vec3) (t : ℝ) : Vec3 :=
  ⟨lerpScalar a.x b.x t, lerpScalar a.y b.y t, lerpScalar a.z b.z t⟩

/-- Rotation of a vector by the yaw-only quaternion
`Quaternion.FromEulerAngles(0, yaw, 0)`, embedding
`rotateByQuaternionToRef` for that quaternion. -/
noncomputable def rotateYaw (v : Vec3) (yaw : ℝ) : Vec3 :=
  ⟨v.x * Real.cos yaw + v.z * Real.sin yaw, v.y,
    v.z * Real.cos yaw - v.x * Real.sin yaw⟩

/-- Keyboard-driven per-frame rotation, embedding `updateRotation`: when the
camera controller is rotating the character, the target rotation is resynced
to the capsule's current yaw and the capsule is left untouched; otherwise
a/arrowleft and d/arrowright steer the target yaw and the capsule yaw is
smoothed toward it. Returns (targetRotationY, capsule yaw) after the call. -/
noncomputable def updateRotation (isRotatingCharacter : Bool)
    (keysDown : List String) (targetRotationY capsuleRotationY : ℝ) :
    ℝ × ℝ :=
  if isRotatingCharacter then (capsuleRotationY, capsuleRotationY)
  else
    let t1 := if "a" ∈ keysDown ∨ "arrowleft" ∈ keysDown then
        targetRotationY - ROTATION_SPEED else targetRotationY
    let t2 := if "d" ∈ keysDown ∨ "arrowright" ∈ keysDown then
        t1 + ROTATION_SPEED else t1
    (t2, capsuleRotationY + (t2 - capsuleRotationY) * ROTATION_SMOOTHING)

/-- Smooth-follow camera position update, embedding `smoothFollowTarget`:
returns the camera position after the call. While the character-rotation lerp
is active the method returns immediately and the camera does not move;
otherwise the camera position is blended toward the yaw-rotated offset from
the target with a zoom-dependent smoothing factor. -/
noncomputable def smoothFollowTarget (isRotatingCharacter : Bool)
    (cameraPosition targetPosition : Vec3) (targetRotationY : ℝ)
    (offset : Vec3) : Vec3 :=
  if isRotatingCharacter then cameraPosition
  else
    let rotatedOffset := rotateYaw offset targetRotationY
    let desiredPos := targetPosition.add rotatedOffset
    let normalizedOffset := (offset.z - ZOOM_MIN) / (ZOOM_MAX - ZOOM_MIN)
    let dynamicSmoothing := lerpScalar 0.05 0.25 normalizedOffset
    lerpVec cameraPosition desiredPos dynamicSmoothing

/-- C9: while the rotation lerp is active (isRotatingCharacter = true), the
keyboard-driven rotation update leaves the capsule's yaw unchanged (for every
key set and every yaw), and the smooth-follow update leaves the camera
position unchanged (for every camera, target and offset): yaw and camera are
owned exclusively by the lerp. -/
theorem c9_lerp_owns_yaw (keysDown : List String)
    (targetRotationY capsuleRotationY : ℝ)
    (cameraPosition targetPosition offset : Vec3) :
    (updateRotation true keysDown targetRotationY capsuleRotationY).2 =
      capsuleRotationY ∧
    smoothFollowTarget true cameraPosition targetPosition targetRotationY
      offset = cameraPosition := by
  constructor <;> simp [updateRotation, smoothFollowTarget]

/-- Cubic ease-in-out curve, embedding `easeInOutCubic`. -/
noncomputable def easeInOutCubic (t : ℝ) : ℝ :=
  if t < 0.5 then 4 * t * t * t else 1 - (-2 * t + 2) ^ 3 / 2

/-- The camera controller's rotation-lerp fields read and written by
`updateCharacterRotationLerp`. -/
structure RotationLerpState where
  isRotatingCharacter : Bool
  characterRotationStartY : ℝ
  characterRotationTargetY : ℝ

/-- Per-frame rotation-lerp advance, embedding `updateCharacterRotationLerp`;
`elapsed` is the wall-clock time in seconds since the lerp start, and the
returned pair is (new lerp state, character yaw after the call). -/
noncomputable def updateCharacterRotationLerp (st : RotationLerpState)
    (rotationY elapsed : ℝ) : RotationLerpState × ℝ :=
  if !st.isRotatingCharacter then (st, rotationY)
  else
    let progress := min (elapsed / characterRotationDuration) 1
    let easedProgress := easeInOutCubic progress
    let currentRotation := lerpScalar st.characterRotationStartY
      st.characterRotationTargetY easedProgress
    ({ st with isRotatingCharacter :=
        if 1 ≤ progress then false else st.isRotatingCharacter },
      currentRotation)

/-- C10: on any update with elapsed time at least the duration, progress is
clamped to exactly 1, the character's yaw is set exactly to the stored target
yaw, and isRotatingCharacter is cleared in the same update; moreover the cubic
ease satisfies ease(0) = 0, ease(1) = 1 and maps [0,1] into [0,1]. -/
theorem c10_lerp_completion (st : RotationLerpState) (rotationY elapsed : ℝ)
    (hrot : st.isRotatingCharacter = true)
    (helapsed : characterRotationDuration ≤ elapsed) :
    min (elapsed / characterRotationDuration) 1 = 1 ∧
    (updateCharacterRotationLerp st rotationY elapsed).2 =
      st.characterRotationTargetY ∧
    (updateCharacterRotationLerp st rotationY elapsed).1.isRotatingCharacter
      = false ∧
    easeInOutCubic 0 = 0 ∧ easeInOutCubic 1 = 1 ∧
    (∀ t, 0 ≤ t → t ≤ 1 → 0 ≤ easeInOutCubic t ∧ easeInOutCubic t ≤ 1) := by
  have hdur : (0 : ℝ) < characterRotationDuration := by
    norm_num [characterRotationDuration]
  have hprog : min (elapsed / characterRotationDuration) 1 = 1 :=
    min_eq_right ((one_le_div hdur).mpr helapsed)
  have hease1 : easeInOutCubic 1 = 1 := by
    rw [easeInOutCubic, if_neg (by norm_num)]
    norm_num
  have hease0 : easeInOutCubic 0 = 0 := by
    rw [easeInOutCubic, if_pos (by norm_num)]
    ring
  refine ⟨hprog, ?_, ?_, hease0, hease1, ?_⟩
  · rw [updateCharacterRotationLerp]
    simp only [hrot, Bool.not_true, Bool.false_eq_true, if_false, hprog,
      hease1, lerpScalar]
    ring
  · rw [updateCharacterRotationLerp]
    simp [hrot, hprog]
  · intro t ht0 ht1
    rw [easeInOutCubic]
    split_ifs with h
    · constructor
      · nlinarith [mul_nonneg (mul_nonneg ht0 ht0) ht0]
      · nlinarith [mul_nonneg (sub_nonneg.mpr (le_of_lt h))
            (mul_nonneg ht0 ht0),
          mul_nonneg (sub_nonneg.mpr (le_of_lt h))
            (by linarith : (0 : ℝ) ≤ 0.5 + t)]
    · have hs0 : (0 : ℝ) ≤ -2 * t + 2 := by linarith
      have hs1 : -2 * t + 2 ≤ (1 : ℝ) := by
        push_neg at h
        linarith
      constructor
      · linarith [pow_le_one₀ hs0 hs1 (n := 3)]
      · linarith [pow_nonneg hs0 3]

/-- Witness for C10 at a concrete input: a lerp from yaw 0 toward yaw 3
queried 1 s after start (past the 0.5 s duration) lands exactly on 3. -/
theorem c10_witness :
    (updateCharacterRotationLerp ⟨true, 0, 3⟩ 0 1).2 = 3 :=
  (c10_lerp_completion ⟨true, 0, 3⟩ 0 1 rfl
    (by norm_num [characterRotationDuration])).2.1

end GameDev
